import Mathlib

/-!
Shallow embedding of the `webdriver` package: the poll/retry engine
(`waitOn`), the chromedriver supervisor (`newChromeDriver`, `driver.Stop`),
the process-wide registry (`Init`, `Shutdown`, `Session.Close`) and the
session query loops (`GetDOMTimeout`, `Session.Wait`), each translated from
the Go source, together with theorems settling the specification's claims.
-/

namespace Webdriver

/-- Result of one run of the poll engine `waitOn`.  `timeout` stands for the
Go value `errors.Wrapf(ErrWaitTimeout, debug.Stack())`, i.e. a wrapped
`ErrWaitTimeout`; `fatal e` is the probe's own error returned verbatim; `ok`
is a nil error. -/
inductive WaitResult (E : Type) where
  | ok
  | fatal (e : E)
  | timeout
  deriving DecidableEq, Repr

/-- The Go loop of `waitOn`, with the probe `fn` given as the sequence of
values it returns at successive invocations (invocation `i`, `i+1`, ...) and
the second argument the number of ticker fires that happen before the
deadline timer fires.  Each tick invokes the probe once; mirroring
`if done, err := fn(); err != nil { return err } else if done { return nil }`,
the error is inspected before `done`.  When the deadline fires first the
result is the wrapped `ErrWaitTimeout`.  The returned `Nat` counts how many
times the probe was invoked. -/
def waitOnFrom {E : Type} (fn : Nat → Bool × Option E) : Nat → Nat → WaitResult E × Nat
  | _, 0 => (.timeout, 0)
  | i, k + 1 =>
    match fn i with
    | (_, some e) => (.fatal e, 1)
    | (true, none) => (.ok, 1)
    | (false, none) =>
      let r := waitOnFrom fn (i + 1) k
      (r.1, r.2 + 1)

/-- `waitOn(fn, timeout)` run with `k` ticker fires before the deadline. -/
def waitOn {E : Type} (fn : Nat → Bool × Option E) (k : Nat) : WaitResult E × Nat :=
  waitOnFrom fn 0 k

/-- Number of one-second ticker fires that precede the deadline for a timeout
of `to` milliseconds: the ticker fires at 1000ms, 2000ms, ..., the deadline
timer at `to` ms, so `to / 1000` full tick intervals elapse before the
deadline.  (At an exact multiple the two channels race; this model lets the
tick win, which does not affect any timeout strictly below one interval.) -/
def ticksBefore (ms : Nat) : Nat := ms / 1000

/-- `waitOn` with its deadline given in milliseconds. -/
def waitOnTimed {E : Type} (fn : Nat → Bool × Option E) (ms : Nat) : WaitResult E × Nat :=
  waitOn fn (ticksBefore ms)

/-- The `driver` record built by `newChromeDriver` (the `cmd` handle is
outside the model; `spawned` in `AcqOut` records whether `cmd.Start` ran). -/
structure Driver where
  port : Nat
  addr : String
  shutdownURLPath : String
  deriving DecidableEq, Repr

/-- Outcome of one `http.Get(addr + "/status")` call. -/
inductive HttpProbe where
  | code (c : Nat)
  | failed
  deriving DecidableEq, Repr

/-- The `status` closure of `newChromeDriver`: Forbidden (403), BadRequest
(400) and OK (200) are all normalized to 200 (legacy engines answered 403 or
400); any other status code passes through; a transport error is reported as
500 (InternalServerError). -/
def statusOf : HttpProbe → Nat
  | .code c => if c = 403 ∨ c = 400 ∨ c = 200 then 200 else c
  | .failed => 500

/-- Errors `newChromeDriver` can return: `spawnFailed` models a `cmd.Start()`
error; `startFailed port` models
`fmt.Errorf("failed to start chrome driver on port %d", port)`. -/
inductive AcqErr where
  | spawnFailed
  | startFailed (port : Nat)
  deriving DecidableEq, Repr

/-- The post-spawn loop `for i := 0; i < 30; i++ { sleep 1s; status(...) }`:
probe attempts are indexed `i, i+1, ...`, one per second; true iff one of the
`n` attempts reports normalized status 200. -/
def pollStatus (probe : Nat → HttpProbe) : Nat → Nat → Bool
  | _, 0 => false
  | i, n + 1 => if statusOf (probe i) = 200 then true else pollStatus probe (i + 1) n

/-- The driver value `newChromeDriver` constructs for `port` before probing:
address `http://localhost:<port>/wd/hub` and shutdown endpoint `/shutdown`. -/
def ncdDriver (port : Nat) : Driver :=
  ⟨port, "http://localhost:" ++ toString port ++ "/wd/hub", "/shutdown"⟩

/-- `(d, owned, err)` result of `newChromeDriver`. -/
inductive AcqRes where
  | ok (d : Driver) (owned : Bool)
  | err (e : AcqErr)
  deriving DecidableEq, Repr

/-- Result of `newChromeDriver` plus whether `cmd.Start` was attempted. -/
structure AcqOut where
  res : AcqRes
  spawned : Bool
  deriving DecidableEq, Repr

/-- `newChromeDriver`: probe attempt 0 is the pre-spawn check of the
candidate address; normalized status 200 there adopts the running process
(`owned = false`, nothing spawned).  Otherwise the executable is spawned
(`spawnOk` abstracts whether `cmd.Start` succeeds) and the same probe is
polled once per second for 30 attempts (indices 1..30); the first success
returns `owned = true`; exhausting the attempts yields the startup error
naming the port. -/
def newChromeDriver (probe : Nat → HttpProbe) (spawnOk : Bool) (port : Nat) : AcqOut :=
  if statusOf (probe 0) = 200 then ⟨.ok (ncdDriver port) false, false⟩
  else if spawnOk then
    (if pollStatus probe 1 30 then ⟨.ok (ncdDriver port) true, true⟩
     else ⟨.err (.startFailed port), true⟩)
  else ⟨.err .spawnFailed, true⟩

/-- The two branches of `driver.Stop`. -/
inductive StopBranch where
  | gracefulHttp
  | killProcess
  deriving DecidableEq, Repr

/-- The branch taken by `driver.Stop`: the direct `cmd.Process.Kill()`
fallback fires only when `shutdownURLPath` is the empty string, otherwise the
graceful `http.Get(addr + shutdownURLPath)` path is taken. -/
def stopBranch (d : Driver) : StopBranch :=
  if d.shutdownURLPath = "" then .killProcess else .gracefulHttp

/-- The `server` record stored in the package-level `inst` variable. -/
structure Server where
  d : Driver
  port : Nat
  ownDriver : Bool
  deriving DecidableEq, Repr

/-- The package-level mutable state guarded by `smu`: the `inst` pointer, the
`sessions` slice (session identities standing for the `*Session` pointers)
and the `debugFlag` global. -/
structure RegState where
  inst : Option Server
  sessions : List Nat
  debugFlag : Bool
  deriving DecidableEq, Repr

/-- Go's `strings.TrimSpace`: drop leading and trailing whitespace. -/
def trimSpace (s : String) : String :=
  ⟨((s.data.dropWhile Char.isWhitespace).reverse.dropWhile Char.isWhitespace).reverse⟩

/-- Results `Init` can return. -/
inductive InitRes where
  | ok
  | errEnvMissing
  | errBadPort
  | errAcquire (e : AcqErr)
  deriving DecidableEq, Repr

/-- Result of `Init` together with the state it leaves behind and the number
of `newChromeDriver` invocations (probe/spawn/adoption attempts) it made. -/
structure InitOut where
  res : InitRes
  st : RegState
  acquires : Nat
  deriving DecidableEq, Repr

/-- `Init(port, debug)`: the CHROME_DRIVER env check (after TrimSpace) and
the `port < 1000` check run before the lock is taken; under the lock, a
non-nil `inst` returns nil immediately; otherwise `SetDebug(debug)` runs and
`newChromeDriver` is invoked once, installing `inst` on success. -/
def Init (env : String) (port : Nat) (debug : Bool) (probe : Nat → HttpProbe)
    (spawnOk : Bool) (st : RegState) : InitOut :=
  if trimSpace env = "" then ⟨.errEnvMissing, st, 0⟩
  else if port < 1000 then ⟨.errBadPort, st, 0⟩
  else
    match st.inst with
    | some _ => ⟨.ok, st, 0⟩
    | none =>
      match (newChromeDriver probe spawnOk port).res with
      | .err e => ⟨.errAcquire e, ⟨none, st.sessions, debug⟩, 1⟩
      | .ok d owned => ⟨.ok, ⟨some ⟨d, port, owned⟩, st.sessions, debug⟩, 1⟩

/-- Observable steps of `Shutdown`: `closeSession s b` is the `s.Quit()` call
on session `s` (with its ignored result `b`), `stopDriver` the
`inst.d.Stop()` call. -/
inductive ShutEvent where
  | closeSession (id : Nat) (quitOk : Bool)
  | stopDriver
  deriving DecidableEq, Repr

/-- `Shutdown`: quits every registered session in slice order — each
`s.Quit()` result (`quitRes s`) is discarded, so one failure never stops the
sweep — sets `sessions = nil`, then only when `inst != nil && inst.ownDriver`
stops the driver and clears `inst`; an adopted (not owned) supervisor is left
in place. -/
def Shutdown (quitRes : Nat → Bool) (st : RegState) : List ShutEvent × RegState :=
  let closes := st.sessions.map (fun s => ShutEvent.closeSession s (quitRes s))
  match st.inst with
  | some sv =>
    if sv.ownDriver then (closes ++ [ShutEvent.stopDriver], ⟨none, [], st.debugFlag⟩)
    else (closes, ⟨some sv, [], st.debugFlag⟩)
  | none => (closes, ⟨none, [], st.debugFlag⟩)

/-- The registry-removal step of `Session.Close`: scan `sessions` for `s`
(`idx` ends at `len(sessions)` when `s` is absent), then execute
`sessions[idx] = sessions[len(sessions)-1]` and truncate by one.  `none`
models a Go runtime panic: when `idx` is not a valid index the write
`sessions[idx]` (or, on an empty slice, the read `sessions[-1]`) indexes out
of range. -/
def Close (s : Nat) (l : List Nat) : Option (List Nat) :=
  let idx := l.findIdx (· == s)
  if idx < l.length then some ((l.set idx (l.getD (l.length - 1) 0)).dropLast)
  else none

/-- Outcome of one underlying `FindElement(ByXPATH, xpath)` call:
a remote "no such element" error, any other error, or success carrying a
possibly-nil element. -/
inductive RawFind (E El : Type) where
  | noSuchElement
  | otherErr (e : E)
  | okElem (el : Option El)
  deriving DecidableEq, Repr

/-- Errors surfaced by `Session.find` and the operations built on it:
`notFound` is `ErrNotFound`; `protocol e` is an underlying error passed
through verbatim. -/
inductive DomErr (E : Type) where
  | notFound
  | protocol (e : E)
  deriving DecidableEq, Repr

/-- `Session.find`: a "no such element" error and a nil element both become
`ErrNotFound`; any other error is returned unmodified; otherwise the element
is wrapped and returned. -/
def sessionFind {E El : Type} : RawFind E El → Except (DomErr E) El
  | .noSuchElement => .error .notFound
  | .otherErr e => .error (.protocol e)
  | .okElem none => .error .notFound
  | .okElem (some el) => .ok el

/-- The probe loop of `Session.GetDOMTimeout` fused with `waitOn`: on each
tick `Session.find` runs on that tick's raw outcome; `ErrNotFound` keeps
waiting, any other error aborts the wait with that error, success stores the
element and ends the wait.  First component is the stored `ret`. -/
def getDOMTimeoutFrom {E El : Type} (raw : Nat → RawFind E El) :
    Nat → Nat → Option El × WaitResult (DomErr E)
  | _, 0 => (none, .timeout)
  | i, k + 1 =>
    match sessionFind (raw i) with
    | .error .notFound => getDOMTimeoutFrom raw (i + 1) k
    | .error (.protocol e) => (none, .fatal (.protocol e))
    | .ok el => (some el, .ok)

/-- `Session.GetDOMTimeout(xpath, to)` with `k` ticks before the deadline and
the underlying find outcomes per tick given by `raw`. -/
def GetDOMTimeout {E El : Type} (raw : Nat → RawFind E El) (k : Nat) :
    Option El × WaitResult (DomErr E) :=
  getDOMTimeoutFrom raw 0 k

/-- Outcome of one `s.Status()` call inside `Session.Wait`'s probe. -/
inductive StatusRes (E : Type) where
  | err (e : E)
  | notReady
  | ready
  deriving DecidableEq, Repr

/-- Outcome of `s.find(xpath)` for one path inside `Session.Wait`'s probe
(collapsed through `Session.find`, so a nil element is `notFound`). -/
inductive FindShort (E : Type) where
  | notFound
  | err (e : E)
  | found
  deriving DecidableEq, Repr

/-- Result of the `for idx, xpath := range xpaths` scan inside one tick of
`Session.Wait`. -/
inductive ScanRes (E : Type) where
  | foundAt (idx : Nat)
  | aborted (e : E)
  | noneFound
  deriving DecidableEq, Repr

/-- The per-tick scan of `Session.Wait`: paths are tried in list order;
`ErrNotFound` continues to the next path, any other error aborts, the first
match reports its index (offset by the accumulator `idx`). -/
def scanPaths {E : Type} (find : Nat → FindShort E) : List Nat → Nat → ScanRes E
  | [], _ => .noneFound
  | x :: rest, idx =>
    match find x with
    | .notFound => scanPaths find rest (idx + 1)
    | .err e => .aborted e
    | .found => .foundAt idx

/-- The loop of `Session.Wait` fused with `waitOn`: each tick first queries
`s.Status()` — an error aborts the wait, not-ready keeps waiting — then scans
the paths in order; `selected` stays `-1` unless a tick succeeds. -/
def WaitFrom {E : Type} (statusAt : Nat → StatusRes E) (findAt : Nat → Nat → FindShort E)
    (xpaths : List Nat) : Nat → Nat → Int × WaitResult E
  | _, 0 => (-1, .timeout)
  | t, k + 1 =>
    match statusAt t with
    | .err e => (-1, .fatal e)
    | .notReady => WaitFrom statusAt findAt xpaths (t + 1) k
    | .ready =>
      match scanPaths (findAt t) xpaths 0 with
      | .aborted e => (-1, .fatal e)
      | .foundAt idx => (Int.ofNat idx, .ok)
      | .noneFound => WaitFrom statusAt findAt xpaths (t + 1) k

/-- `Session.Wait(xpaths)` with `k` ticks before the deadline, engine status
per tick given by `statusAt` and the find outcome of path `p` at tick `t` by
`findAt t p`. -/
def Wait {E : Type} (statusAt : Nat → StatusRes E) (findAt : Nat → Nat → FindShort E)
    (xpaths : List Nat) (k : Nat) : Int × WaitResult E :=
  WaitFrom statusAt findAt xpaths 0 k

/-- A tick of `Session.Wait` that keeps waiting: engine not ready, or ready
with every path scan ending in `noneFound`. -/
def waitTickContinues {E : Type} (statusAt : Nat → StatusRes E)
    (findAt : Nat → Nat → FindShort E) (xpaths : List Nat) (t : Nat) : Prop :=
  statusAt t = .notReady ∨
    (statusAt t = .ready ∧ scanPaths (findAt t) xpaths 0 = .noneFound)

instance {E : Type} [DecidableEq E] (statusAt : Nat → StatusRes E)
    (findAt : Nat → Nat → FindShort E) (xpaths : List Nat) (t : Nat) :
    Decidable (waitTickContinues statusAt findAt xpaths t) := by
  unfold waitTickContinues
  infer_instance

/-- A run of the poll loop whose probe keeps answering "not yet" for every
tick before the deadline times out, invoking the probe once per tick. -/
theorem waitOnFrom_const_continue {E : Type} (fn : Nat → Bool × Option E) (i k : Nat)
    (h : ∀ j, i ≤ j → j < i + k → fn j = (false, none)) :
    waitOnFrom fn i k = (.timeout, k) := by
  induction k generalizing i with
  | zero => rfl
  | succ k ih =>
    have h0 : fn i = (false, none) := h i le_rfl (by omega)
    have hrest : waitOnFrom fn (i + 1) k = (.timeout, k) :=
      ih (i + 1) (fun j hj1 hj2 => h j (by omega) (by omega))
    simp [waitOnFrom, h0, hrest]

/-- Claim C4: the poll engine's probe contract.  With at least one tick before
the deadline, a probe answering `(true, nil)` on its first invocation ends the
wait successfully after exactly one invocation; a probe answering
`(true, err)` aborts immediately with that error after exactly one invocation
(no further ticks); and a probe answering `(false, nil)` on every one of the
`k` ticks before the deadline keeps waiting — it is invoked exactly once per
tick, `k` times — and the run fails with the wrapped `ErrWaitTimeout` and no
other error. -/
theorem C4_waitOn_probe_contract (E : Type) (fn : Nat → Bool × Option E) (k : Nat) (e : E) :
    (fn 0 = (true, none) → 0 < k → waitOn fn k = (.ok, 1))
    ∧ (fn 0 = (true, some e) → 0 < k → waitOn fn k = (.fatal e, 1))
    ∧ ((∀ i, i < k → fn i = (false, none)) → waitOn fn k = (.timeout, k)) := by
  refine ⟨?_, ?_, ?_⟩
  · intro h0 hk
    match k, hk with
    | k + 1, _ => simp [waitOn, waitOnFrom, h0]
  · intro h0 hk
    match k, hk with
    | k + 1, _ => simp [waitOn, waitOnFrom, h0]
  · intro h
    exact waitOnFrom_const_continue fn 0 k (fun j hj1 hj2 => h j (by omega))

/-- Concrete runs of `C4_waitOn_probe_contract`: an immediately-successful
probe, an immediately-fatal probe, and a never-done probe under a 3-tick
deadline. -/
theorem C4_waitOn_probe_contract_witness :
    waitOn (fun _ => (true, (none : Option Nat))) 1 = (.ok, 1)
    ∧ waitOn (fun _ => (true, some 7)) 2 = (.fatal 7, 1)
    ∧ waitOn (fun _ => (false, (none : Option Nat))) 3 = (.timeout, 3) :=
  ⟨(C4_waitOn_probe_contract Nat (fun _ => (true, none)) 1 7).1 rfl (by decide),
   (C4_waitOn_probe_contract Nat (fun _ => (true, some 7)) 2 7).2.1 rfl (by decide),
   (C4_waitOn_probe_contract Nat (fun _ => (false, none)) 3 7).2.2 (fun i _ => rfl)⟩

/-- Claim C9: with a timeout strictly below the one-second tick interval the
deadline timer fires before the first ticker fire, so for every probe — even
one that would answer `(true, nil)` immediately — the probe is never invoked
(invocation count 0) and the run returns the wrapped `ErrWaitTimeout`. -/
theorem C9_waitOn_sub_tick_timeout (E : Type) (fn : Nat → Bool × Option E) (ms : Nat)
    (h : ms < 1000) : waitOnTimed fn ms = (.timeout, 0) := by
  unfold waitOnTimed ticksBefore waitOn
  rw [Nat.div_eq_of_lt h]
  rfl

/-- Concrete run of `C9_waitOn_sub_tick_timeout`: a 999ms deadline times out
with zero probe invocations although the probe would succeed on its first
invocation (as the one-tick run shows). -/
theorem C9_waitOn_sub_tick_timeout_witness :
    999 < 1000
    ∧ waitOnTimed (fun _ => (true, (none : Option Nat))) 999 = (.timeout, 0)
    ∧ waitOn (fun _ => (true, (none : Option Nat))) 1 = (.ok, 1) :=
  ⟨by decide,
   C9_waitOn_sub_tick_timeout Nat (fun _ => (true, none)) 999 (by decide),
   by decide⟩

/-- If some attempt in the polling window reports status 200, the poll
succeeds. -/
theorem pollStatus_true_of_exists (probe : Nat → HttpProbe) (i n : Nat)
    (h : ∃ j, i ≤ j ∧ j < i + n ∧ statusOf (probe j) = 200) :
    pollStatus probe i n = true := by
  induction n generalizing i with
  | zero => exact absurd h (by omega)
  | succ n ih =>
    by_cases h0 : statusOf (probe i) = 200
    · simp [pollStatus, h0]
    · obtain ⟨j, hj1, hj2, hj3⟩ := h
      have hji : i ≠ j := fun he => h0 (he ▸ hj3)
      have : pollStatus probe (i + 1) n = true :=
        ih (i + 1) ⟨j, by omega, by omega, hj3⟩
      simp [pollStatus, h0, this]

/-- If no attempt in the polling window reports status 200, the poll fails. -/
theorem pollStatus_false_of_forall (probe : Nat → HttpProbe) (i n : Nat)
    (h : ∀ j, i ≤ j → j < i + n → statusOf (probe j) ≠ 200) :
    pollStatus probe i n = false := by
  induction n generalizing i with
  | zero => rfl
  | succ n ih =>
    have h0 : statusOf (probe i) ≠ 200 := h i le_rfl (by omega)
    have : pollStatus probe (i + 1) n = false :=
      ih (i + 1) (fun j hj1 hj2 => h j (by omega) (by omega))
    simp [pollStatus, h0, this]

/-- Claim C7: the `acquireProcess` contract of `newChromeDriver`.  When the
pre-spawn `/status` probe answers Forbidden (403), BadRequest (400) or OK
(200), the running process is adopted: `owned = false` and nothing is
spawned.  Otherwise the executable is spawned and `/status` is polled once
per second over attempts 1..30: any success within that budget returns
`owned = true`, and exhausting all 30 attempts returns the fatal startup
error naming the port. -/
theorem C7_newChromeDriver_contract (probe : Nat → HttpProbe) (spawnOk : Bool) (port : Nat) :
    ((probe 0 = .code 403 ∨ probe 0 = .code 400 ∨ probe 0 = .code 200) →
      newChromeDriver probe spawnOk port = ⟨.ok (ncdDriver port) false, false⟩)
    ∧ (statusOf (probe 0) ≠ 200 → spawnOk = true →
      ∀ j, 1 ≤ j → j ≤ 30 → statusOf (probe j) = 200 →
        newChromeDriver probe spawnOk port = ⟨.ok (ncdDriver port) true, true⟩)
    ∧ (statusOf (probe 0) ≠ 200 → spawnOk = true →
      (∀ j, j ≤ 30 → statusOf (probe j) ≠ 200) →
        newChromeDriver probe spawnOk port = ⟨.err (.startFailed port), true⟩) := by
  refine ⟨?_, ?_, ?_⟩
  · intro h
    have h200 : statusOf (probe 0) = 200 := by
      rcases h with h | h | h <;> simp [statusOf, h]
    simp [newChromeDriver, h200]
  · intro h0 hs j hj1 hj2 hj3
    have hp : pollStatus probe 1 30 = true :=
      pollStatus_true_of_exists probe 1 30 ⟨j, hj1, by omega, hj3⟩
    simp [newChromeDriver, h0, hs, hp]
  · intro h0 hs h
    have hp : pollStatus probe 1 30 = false :=
      pollStatus_false_of_forall probe 1 30 (fun j hj1 hj2 => h j (by omega))
    simp [newChromeDriver, h0, hs, hp]

/-- Concrete runs of `C7_newChromeDriver_contract`: adoption on a legacy 403
answer; spawn then success on attempt 3; spawn then 30 failed attempts. -/
theorem C7_newChromeDriver_contract_witness :
    newChromeDriver (fun _ => .code 403) true 9090 = ⟨.ok (ncdDriver 9090) false, false⟩
    ∧ newChromeDriver (fun i => if i < 3 then .failed else .code 200) true 9515
        = ⟨.ok (ncdDriver 9515) true, true⟩
    ∧ newChromeDriver (fun _ => .failed) true 9515 = ⟨.err (.startFailed 9515), true⟩ :=
  ⟨(C7_newChromeDriver_contract (fun _ => .code 403) true 9090).1 (Or.inl rfl),
   (C7_newChromeDriver_contract (fun i => if i < 3 then .failed else .code 200) true 9515).2.1
     (by decide) rfl 3 (by decide) (by decide) (by decide),
   (C7_newChromeDriver_contract (fun _ => .failed) true 9515).2.2
     (by decide) rfl (fun j _ => by decide)⟩

/-- Claim C10: every driver value `newChromeDriver` returns — adopted or
spawned — carries the shutdown endpoint path `/shutdown` (never empty), so
`driver.Stop` always takes the graceful HTTP shutdown branch and the direct
process-kill fallback is unreachable for such drivers. -/
theorem C10_driver_stop_graceful (probe : Nat → HttpProbe) (spawnOk : Bool) (port : Nat)
    (d : Driver) (owned : Bool)
    (h : (newChromeDriver probe spawnOk port).res = .ok d owned) :
    d.shutdownURLPath = "/shutdown" ∧ stopBranch d = .gracefulHttp := by
  have hd : d = ncdDriver port := by
    unfold newChromeDriver at h
    split at h
    · injection h with h1 h2; exact h1.symm
    · split at h
      · split at h
        · injection h with h1 h2; exact h1.symm
        · exact absurd h (by simp)
      · exact absurd h (by simp)
  subst hd
  refine ⟨rfl, ?_⟩
  have : ("/shutdown" : String) ≠ "" := by decide
  simp [stopBranch, ncdDriver, this]

/-- Concrete run of `C10_driver_stop_graceful` on an adopted driver at port
9090. -/
theorem C10_driver_stop_graceful_witness :
    (ncdDriver 9090).shutdownURLPath = "/shutdown"
    ∧ stopBranch (ncdDriver 9090) = .gracefulHttp :=
  C10_driver_stop_graceful (fun _ => .code 200) true 9090 (ncdDriver 9090) false (by decide)

/-- Claim C1 — refuted by the code, whose own specification requires close to
be tolerant of "not found in registry": `Close` is safe only when the session
is still registered (first conjunct: a registered session is removed).  When
the session is absent — after a prior close or a shutdown emptied the
registry — the scan leaves `idx = len(sessions)` and the write
`sessions[idx] = sessions[len(sessions)-1]` indexes out of range and panics
(modeled as `none`), both on an empty collection and on a non-empty one; so
of two close calls on the same session the second panics instead of being a
no-op. -/
theorem C1_close_absent_panics :
    Close 1 [1] = some [] ∧ Close 1 [] = none ∧ Close 3 [1, 2] = none := by decide

/-- Claim C3 as stated is refuted: with a supervisor already active, a second
`Init` with port 999 (< 1000) returns the bad-port error, not success, since
the port validation runs before the idempotency check. -/
theorem C3_second_init_bad_port_errors :
    (Init "chromedriver" 999 false (fun _ => .code 200) true
        ⟨some ⟨ncdDriver 9090, 9090, false⟩, [], false⟩).res = .errBadPort
    ∧ InitRes.errBadPort ≠ InitRes.ok := by decide

/-- Claim C3 (amended): for every port ≥ 1000 and non-blank CHROME_DRIVER
value, if a supervisor is already active then a second `Init` returns success
immediately as a pure no-op — the state is untouched and `newChromeDriver`
(probe/spawn/adoption) is never invoked. -/
theorem C3_init_idempotent (env : String) (port : Nat) (debug : Bool)
    (probe : Nat → HttpProbe) (spawnOk : Bool) (st : RegState) (sv : Server)
    (henv : ¬ trimSpace env = "") (hport : ¬ port < 1000) (h : st.inst = some sv) :
    Init env port debug probe spawnOk st = ⟨.ok, st, 0⟩ := by
  simp [Init, henv, hport, h]

/-- Concrete run of `C3_init_idempotent`: a second `Init` at port 9090 with a
supervisor active is a pure no-op success. -/
theorem C3_init_idempotent_witness :
    Init "chromedriver" 9090 false (fun _ => .code 200) true
        ⟨some ⟨ncdDriver 9090, 9090, false⟩, [], false⟩
      = ⟨.ok, ⟨some ⟨ncdDriver 9090, 9090, false⟩, [], false⟩, 0⟩ :=
  C3_init_idempotent "chromedriver" 9090 false (fun _ => .code 200) true
    ⟨some ⟨ncdDriver 9090, 9090, false⟩, [], false⟩ ⟨ncdDriver 9090, 9090, false⟩
    (by decide) (by decide) rfl

/-- Claim C2 as stated is refuted: after `Shutdown` of a merely adopted (not
owned) supervisor the active-supervisor marker `inst` is NOT cleared, and a
subsequent `Init` is a no-op (zero `newChromeDriver` invocations) instead of
starting fresh. -/
theorem C2_shutdown_adopted_keeps_marker :
    ((Shutdown (fun _ => true) ⟨some ⟨ncdDriver 9090, 9090, false⟩, [], false⟩).2).inst
      = some ⟨ncdDriver 9090, 9090, false⟩
    ∧ (some ⟨ncdDriver 9090, 9090, false⟩ : Option Server) ≠ none
    ∧ (Init "chromedriver" 9090 false (fun _ => .code 200) true
        (Shutdown (fun _ => true) ⟨some ⟨ncdDriver 9090, 9090, false⟩, [], false⟩).2).acquires
      = 0 := by decide

/-- Claim C2 (amended): after `Shutdown` returns, the active-supervisor
marker is cleared exactly when the supervised process was owned — then a
subsequent valid `Init` performs a fresh `newChromeDriver` probe/spawn; when
the process was merely adopted the marker is left set and a subsequent `Init`
returns success as a no-op without probing or spawning. -/
theorem C2_shutdown_marker_iff_owned (quitRes : Nat → Bool) (st : RegState) (sv : Server)
    (h : st.inst = some sv) :
    (sv.ownDriver = true → (Shutdown quitRes st).2.inst = none
      ∧ ∀ (env : String) (port : Nat) (debug : Bool) (probe : Nat → HttpProbe)
          (spawnOk : Bool), ¬ trimSpace env = "" → ¬ port < 1000 →
          (Init env port debug probe spawnOk (Shutdown quitRes st).2).acquires = 1)
    ∧ (sv.ownDriver = false → (Shutdown quitRes st).2.inst = some sv
      ∧ ∀ (env : String) (port : Nat) (debug : Bool) (probe : Nat → HttpProbe)
          (spawnOk : Bool), ¬ trimSpace env = "" → ¬ port < 1000 →
          (Init env port debug probe spawnOk (Shutdown quitRes st).2).res = .ok
          ∧ (Init env port debug probe spawnOk (Shutdown quitRes st).2).acquires = 0) := by
  constructor
  · intro hod
    constructor
    · simp [Shutdown, h, hod]
    · intro env port debug probe spawnOk henv hport
      cases hres : (newChromeDriver probe spawnOk port).res <;>
        simp [Shutdown, h, hod, Init, henv, hport, hres]
  · intro hod
    constructor
    · simp [Shutdown, h, hod]
    · intro env port debug probe spawnOk henv hport
      simp [Shutdown, h, hod, Init, henv, hport]

/-- Concrete runs of `C2_shutdown_marker_iff_owned` on an owned and on an
adopted supervisor. -/
theorem C2_shutdown_marker_iff_owned_witness :
    ((Shutdown (fun _ => true) ⟨some ⟨ncdDriver 9090, 9090, true⟩, [], false⟩).2.inst = none
      ∧ (Init "chromedriver" 9090 false (fun _ => .code 200) true
          (Shutdown (fun _ => true) ⟨some ⟨ncdDriver 9090, 9090, true⟩, [], false⟩).2).acquires
        = 1)
    ∧ ((Shutdown (fun _ => true) ⟨some ⟨ncdDriver 9090, 9090, false⟩, [77], true⟩).2.inst
        = some ⟨ncdDriver 9090, 9090, false⟩
      ∧ (Init "chromedriver" 9090 false (fun _ => .code 200) true
          (Shutdown (fun _ => true) ⟨some ⟨ncdDriver 9090, 9090, false⟩, [77], true⟩).2).res
        = .ok
      ∧ (Init "chromedriver" 9090 false (fun _ => .code 200) true
          (Shutdown (fun _ => true) ⟨some ⟨ncdDriver 9090, 9090, false⟩, [77], true⟩).2).acquires
        = 0) := by
  have hO := (C2_shutdown_marker_iff_owned (fun _ => true)
    ⟨some ⟨ncdDriver 9090, 9090, true⟩, [], false⟩ ⟨ncdDriver 9090, 9090, true⟩ rfl).1 rfl
  have hA := (C2_shutdown_marker_iff_owned (fun _ => true)
    ⟨some ⟨ncdDriver 9090, 9090, false⟩, [77], true⟩ ⟨ncdDriver 9090, 9090, false⟩ rfl).2 rfl
  have hA2 := hA.2 "chromedriver" 9090 false (fun _ => .code 200) true (by decide) (by decide)
  exact ⟨⟨hO.1, hO.2 "chromedriver" 9090 false (fun _ => .code 200) true (by decide) (by decide)⟩,
    ⟨hA.1, hA2.1, hA2.2⟩⟩

/-- In `M ++ [x]` with `x` absent from `M`, the only decomposition around `x`
is with prefix exactly `M`. -/
theorem eq_prefix_of_append_singleton {α : Type} (x : α) :
    ∀ (M pre post : List α), x ∉ M → M ++ [x] = pre ++ x :: post → pre = M := by
  intro M
  induction M with
  | nil =>
    intro pre post _ h
    cases pre with
    | nil => rfl
    | cons a pre =>
      simp only [List.nil_append, List.cons_append] at h
      injection h with h1 h2
      exact absurd h2.symm (by simp)
  | cons m M ih =>
    intro pre post hx h
    have hxm : x ≠ m := fun he => hx (he ▸ List.mem_cons_self m M)
    have hxM : x ∉ M := fun he => hx (List.mem_cons_of_mem m he)
    cases pre with
    | nil =>
      simp only [List.cons_append, List.nil_append] at h
      injection h with h1 h2
      exact absurd h1.symm hxm
    | cons a pre =>
      simp only [List.cons_append] at h
      injection h with h1 h2
      rw [h1, ih pre post hxM h2]

/-- Claim C5: `Shutdown` with the registered sessions of `st` quits every one
of them — the ignored per-session `Quit` results `quitRes` never stop the
sweep — and every session-close event happens strictly before any
driver-stop event in the trace; an adopted (not owned) process is never
stopped; and the session collection is left empty. -/
theorem C5_shutdown_closes_before_stop (quitRes : Nat → Bool) (st : RegState) :
    (∀ s ∈ st.sessions, ShutEvent.closeSession s (quitRes s) ∈ (Shutdown quitRes st).1)
    ∧ (∀ pre post, (Shutdown quitRes st).1 = pre ++ ShutEvent.stopDriver :: post →
        ∀ s ∈ st.sessions, ShutEvent.closeSession s (quitRes s) ∈ pre)
    ∧ (∀ sv, st.inst = some sv → sv.ownDriver = false →
        ShutEvent.stopDriver ∉ (Shutdown quitRes st).1)
    ∧ (Shutdown quitRes st).2.sessions = [] := by
  have hstop : ShutEvent.stopDriver ∉
      st.sessions.map (fun s => ShutEvent.closeSession s (quitRes s)) := by
    intro hmem
    rcases List.mem_map.mp hmem with ⟨a, _, ha⟩
    exact ShutEvent.noConfusion ha
  cases hinst : st.inst with
  | none =>
    have htr : (Shutdown quitRes st).1
        = st.sessions.map (fun s => ShutEvent.closeSession s (quitRes s)) := by
      simp [Shutdown, hinst]
    have hse : (Shutdown quitRes st).2.sessions = [] := by simp [Shutdown, hinst]
    refine ⟨?_, ?_, ?_, hse⟩
    · intro s hs
      rw [htr]
      exact List.mem_map_of_mem _ hs
    · intro pre post h s hs
      rw [htr] at h
      have hmem : ShutEvent.stopDriver ∈
          st.sessions.map (fun s => ShutEvent.closeSession s (quitRes s)) := by
        rw [h]
        exact List.mem_append_right pre (List.mem_cons_self _ post)
      exact absurd hmem hstop
    · intro sv hsv
      exact absurd hsv (by simp)
  | some sv =>
    cases hod : sv.ownDriver with
    | true =>
      have htr : (Shutdown quitRes st).1
          = st.sessions.map (fun s => ShutEvent.closeSession s (quitRes s))
            ++ [ShutEvent.stopDriver] := by
        simp [Shutdown, hinst, hod]
      have hse : (Shutdown quitRes st).2.sessions = [] := by simp [Shutdown, hinst, hod]
      refine ⟨?_, ?_, ?_, hse⟩
      · intro s hs
        rw [htr]
        exact List.mem_append_left _ (List.mem_map_of_mem _ hs)
      · intro pre post h s hs
        rw [htr] at h
        have hpre := eq_prefix_of_append_singleton ShutEvent.stopDriver
          (st.sessions.map (fun s => ShutEvent.closeSession s (quitRes s))) pre post hstop h
        rw [hpre]
        exact List.mem_map_of_mem _ hs
      · intro sv' hsv' hod'
        injection hsv' with he
        subst he
        rw [hod] at hod'
        exact Bool.noConfusion hod'
    | false =>
      have htr : (Shutdown quitRes st).1
          = st.sessions.map (fun s => ShutEvent.closeSession s (quitRes s)) := by
        simp [Shutdown, hinst, hod]
      have hse : (Shutdown quitRes st).2.sessions = [] := by simp [Shutdown, hinst, hod]
      refine ⟨?_, ?_, ?_, hse⟩
      · intro s hs
        rw [htr]
        exact List.mem_map_of_mem _ hs
      · intro pre post h s hs
        rw [htr] at h
        have hmem : ShutEvent.stopDriver ∈
            st.sessions.map (fun s => ShutEvent.closeSession s (quitRes s)) := by
          rw [h]
          exact List.mem_append_right pre (List.mem_cons_self _ post)
        exact absurd hmem hstop
      · intro sv' hsv' hod'
        rw [htr]
        exact hstop

/-- Concrete run of `C5_shutdown_closes_before_stop`: two sessions, the first
of which fails to quit, with an owned driver; both close events land in the
prefix before the stop event, and the registry is emptied.  A second
application shows an adopted driver is never stopped. -/
theorem C5_shutdown_closes_before_stop_witness :
    (ShutEvent.closeSession 1 false ∈
        (Shutdown (fun s => s == 2) ⟨some ⟨ncdDriver 9090, 9090, true⟩, [1, 2], false⟩).1)
    ∧ (ShutEvent.closeSession 2 true ∈
        [ShutEvent.closeSession 1 false, ShutEvent.closeSession 2 true])
    ∧ (ShutEvent.stopDriver ∉
        (Shutdown (fun s => s == 2) ⟨some ⟨ncdDriver 9090, 9090, false⟩, [1, 2], false⟩).1)
    ∧ (Shutdown (fun s => s == 2) ⟨some ⟨ncdDriver 9090, 9090, true⟩, [1, 2], false⟩).2.sessions
      = [] := by
  have h := C5_shutdown_closes_before_stop (fun s => s == 2)
    ⟨some ⟨ncdDriver 9090, 9090, true⟩, [1, 2], false⟩
  have hA := C5_shutdown_closes_before_stop (fun s => s == 2)
    ⟨some ⟨ncdDriver 9090, 9090, false⟩, [1, 2], false⟩
  refine ⟨h.1 1 (by decide), ?_, hA.2.2.1 ⟨ncdDriver 9090, 9090, false⟩ rfl rfl, h.2.2.2⟩
  exact h.2.1 [ShutEvent.closeSession 1 false, ShutEvent.closeSession 2 true] []
    (by decide) 2 (by decide)

/-- A `GetDOMTimeout` run whose underlying find keeps answering "no such
element" for every tick before the deadline times out with no element. -/
theorem getDOMTimeoutFrom_notFound {E El : Type} (raw : Nat → RawFind E El) (i k : Nat)
    (h : ∀ j, i ≤ j → j < i + k → raw j = .noSuchElement) :
    getDOMTimeoutFrom raw i k = (none, .timeout) := by
  induction k generalizing i with
  | zero => rfl
  | succ k ih =>
    have h0 : raw i = .noSuchElement := h i le_rfl (by omega)
    have hrest := ih (i + 1) (fun j hj1 hj2 => h j (by omega) (by omega))
    simp [getDOMTimeoutFrom, h0, sessionFind, hrest]

/-- Claim C6 as stated is refuted: a selector that matches zero elements on
every tick until the timeout elapses makes `GetDOMTimeout` fail with the
wrapped wait-timeout error, which is not the `ErrNotFound` error the claim
announces. -/
theorem C6_getdom_times_out_not_notfound :
    GetDOMTimeout (fun _ => (RawFind.noSuchElement : RawFind Nat Nat)) 3
      = (none, WaitResult.timeout)
    ∧ (WaitResult.timeout : WaitResult (DomErr Nat)) ≠ .fatal .notFound := by decide

/-- Claim C6 (amended): a selector matching zero elements on every tick until
the timeout elapses makes `GetDOMTimeout` fail with the wait-timeout error
(`ErrNotFound` is only converted into "keep polling" each tick); when the
find resolves an element on the first tick that element is returned with a
nil error; and any underlying error other than not-found aborts the wait at
once and is propagated verbatim. -/
theorem C6_getdom_contract (E El : Type) (raw : Nat → RawFind E El) (k : Nat) (el : El) (e : E) :
    ((∀ i, i < k → raw i = .noSuchElement) → GetDOMTimeout raw k = (none, .timeout))
    ∧ (0 < k → raw 0 = .okElem (some el) → GetDOMTimeout raw k = (some el, .ok))
    ∧ (0 < k → raw 0 = .otherErr e → GetDOMTimeout raw k = (none, .fatal (.protocol e))) := by
  refine ⟨?_, ?_, ?_⟩
  · intro h
    exact getDOMTimeoutFrom_notFound raw 0 k (fun j hj1 hj2 => h j (by omega))
  · intro hk h0
    match k, hk with
    | k + 1, _ => simp [GetDOMTimeout, getDOMTimeoutFrom, h0, sessionFind]
  · intro hk h0
    match k, hk with
    | k + 1, _ => simp [GetDOMTimeout, getDOMTimeoutFrom, h0, sessionFind]

/-- Concrete runs of `C6_getdom_contract`: a never-matching selector under a
2-tick deadline, an immediate match, and an immediate non-not-found error. -/
theorem C6_getdom_contract_witness :
    GetDOMTimeout (fun _ => (RawFind.noSuchElement : RawFind Nat Nat)) 2 = (none, .timeout)
    ∧ GetDOMTimeout (fun _ => (RawFind.okElem (some 5) : RawFind Nat Nat)) 2 = (some 5, .ok)
    ∧ GetDOMTimeout (fun _ => (RawFind.otherErr 9 : RawFind Nat Nat)) 2
        = (none, .fatal (.protocol 9)) :=
  ⟨(C6_getdom_contract Nat Nat (fun _ => .noSuchElement) 2 5 9).1 (fun i _ => rfl),
   (C6_getdom_contract Nat Nat (fun _ => .okElem (some 5)) 2 5 9).2.1 (by decide) rfl,
   (C6_getdom_contract Nat Nat (fun _ => .otherErr 9) 2 5 9).2.2 (by decide) rfl⟩

/-- The per-tick scan reports the first path in list order that matches, when
every earlier path reports not-found. -/
theorem scanPaths_found_of {E : Type} (find : Nat → FindShort E) :
    ∀ (xs : List Nat) (base j : Nat), j < xs.length →
      (∀ i, i < j → find (xs.getD i 0) = .notFound) →
      find (xs.getD j 0) = .found →
      scanPaths find xs base = .foundAt (base + j) := by
  intro xs
  induction xs with
  | nil =>
    intro base j hj
    simp at hj
  | cons x rest ih =>
    intro base j hj hprev hfound
    cases j with
    | zero =>
      have hx : find x = .found := by simpa using hfound
      simp [scanPaths, hx]
    | succ j =>
      have hx : find x = .notFound := by
        have h0 := hprev 0 (by omega)
        simpa using h0
      have hrest := ih (base + 1) j (by simpa using hj)
        (fun i hi => by
          have hi1 := hprev (i + 1) (by omega)
          simpa using hi1)
        (by simpa using hfound)
      simp only [scanPaths, hx]
      rw [hrest]
      congr 1
      omega

/-- One tick of `Session.Wait` that keeps waiting steps the loop to the next
tick. -/
theorem WaitFrom_continue {E : Type} (statusAt : Nat → StatusRes E)
    (findAt : Nat → Nat → FindShort E) (xpaths : List Nat) (t k : Nat)
    (h : waitTickContinues statusAt findAt xpaths t) :
    WaitFrom statusAt findAt xpaths t (k + 1) = WaitFrom statusAt findAt xpaths (t + 1) k := by
  rcases h with h | ⟨h1, h2⟩
  · simp [WaitFrom, h]
  · simp [WaitFrom, h1, h2]

/-- Ticks of `Session.Wait` that keep waiting can be skipped wholesale. -/
theorem WaitFrom_skip {E : Type} (statusAt : Nat → StatusRes E)
    (findAt : Nat → Nat → FindShort E) (xpaths : List Nat) :
    ∀ (t0 t k : Nat), t0 ≤ k →
      (∀ u, u < t0 → waitTickContinues statusAt findAt xpaths (t + u)) →
      WaitFrom statusAt findAt xpaths t k
        = WaitFrom statusAt findAt xpaths (t + t0) (k - t0) := by
  intro t0
  induction t0 with
  | zero =>
    intro t k _ _
    simp
  | succ t0 ih =>
    intro t k hk hcont
    match k, hk with
    | k + 1, _ =>
      have h0 : waitTickContinues statusAt findAt xpaths t := by
        have hu := hcont 0 (by omega)
        simpa using hu
      rw [WaitFrom_continue statusAt findAt xpaths t k h0]
      have h1 : t + (t0 + 1) = t + 1 + t0 := by omega
      have h2 : k + 1 - (t0 + 1) = k - t0 := by omega
      rw [h1, h2]
      exact ih (t + 1) k (by omega) (fun u hu => by
        have hc := hcont (u + 1) (by omega)
        have harith : t + (u + 1) = t + 1 + u := by omega
        rwa [harith] at hc)

/-- Claim C8: with every tick before `t0` keeping the wait alive, on tick
`t0` the `Session.Wait` loop (a) returns the index of the first path in list
order that matches on that tick — earlier-listed paths answering not-found —
regardless of when other paths became matchable; (b) aborts with a status
error verbatim; and (c) an engine that is never ready keeps the wait going
until it times out, rather than producing an error. -/
theorem C8_wait_first_match_contract (E : Type) (statusAt : Nat → StatusRes E)
    (findAt : Nat → Nat → FindShort E) (xpaths : List Nat) (k t0 : Nat)
    (hk : t0 < k) (hcont : ∀ t, t < t0 → waitTickContinues statusAt findAt xpaths t) :
    (∀ j, statusAt t0 = .ready → j < xpaths.length →
        (∀ i, i < j → findAt t0 (xpaths.getD i 0) = .notFound) →
        findAt t0 (xpaths.getD j 0) = .found →
        Wait statusAt findAt xpaths k = (Int.ofNat j, .ok))
    ∧ (∀ e, statusAt t0 = .err e → Wait statusAt findAt xpaths k = (-1, .fatal e))
    ∧ ((∀ t, t < k → statusAt t = .notReady) →
        Wait statusAt findAt xpaths k = (-1, .timeout)) := by
  have hskip : Wait statusAt findAt xpaths k
      = WaitFrom statusAt findAt xpaths t0 (k - t0) := by
    have h := WaitFrom_skip statusAt findAt xpaths t0 0 k (by omega)
      (fun u hu => by simpa using hcont u hu)
    simpa [Wait] using h
  obtain ⟨m, hm⟩ : ∃ m, k - t0 = m + 1 := ⟨k - t0 - 1, by omega⟩
  refine ⟨?_, ?_, ?_⟩
  · intro j hready hjlen hprev hfound
    have hscan : scanPaths (findAt t0) xpaths 0 = .foundAt j := by
      have h := scanPaths_found_of (findAt t0) xpaths 0 j hjlen hprev hfound
      simpa using h
    rw [hskip, hm]
    simp [WaitFrom, hready, hscan]
  · intro e herr
    rw [hskip, hm]
    simp [WaitFrom, herr]
  · intro hnr
    have h := WaitFrom_skip statusAt findAt xpaths k 0 k le_rfl
      (fun u hu => Or.inl (by simpa using hnr u (by omega)))
    simpa [Wait, WaitFrom] using h

/-- Concrete runs of `C8_wait_first_match_contract`: on the succeeding tick
both the second and third paths match but the second wins by list order; a
status error aborts; an always-not-ready engine times out. -/
theorem C8_wait_first_match_contract_witness :
    Wait (fun t => if t = 0 then StatusRes.notReady else (.ready : StatusRes Nat))
        (fun t p => if t = 1 ∧ 8 ≤ p then FindShort.found else .notFound) [7, 8, 9] 3
      = (Int.ofNat 1, .ok)
    ∧ Wait (fun _ => (StatusRes.err 5 : StatusRes Nat)) (fun _ _ => FindShort.notFound) [7] 1
      = (-1, .fatal 5)
    ∧ Wait (fun _ => (StatusRes.notReady : StatusRes Nat)) (fun _ _ => FindShort.notFound) [7] 2
      = (-1, .timeout) :=
  ⟨(C8_wait_first_match_contract Nat
      (fun t => if t = 0 then StatusRes.notReady else .ready)
      (fun t p => if t = 1 ∧ 8 ≤ p then FindShort.found else .notFound) [7, 8, 9] 3 1
      (by decide) (by decide)).1 1 (by decide) (by decide) (by decide) (by decide),
   (C8_wait_first_match_contract Nat (fun _ => StatusRes.err 5)
      (fun _ _ => FindShort.notFound) [7] 1 0 (by decide)
      (fun t ht => absurd ht (by omega))).2.1 5 rfl,
   (C8_wait_first_match_contract Nat (fun _ => StatusRes.notReady)
      (fun _ _ => FindShort.notFound) [7] 2 0 (by decide)
      (fun t ht => absurd ht (by omega))).2.2 (fun t ht => rfl)⟩

end Webdriver
